import Mathlib

/-!
Verification development for the three-party SGX remote-attestation
implementation (crates ra-client, ra-enclave, ra-sp).

The three orchestrator files `ra-client/src/context.rs`,
`ra-enclave/src/context.rs` and `ra-sp/src/context.rs` are embedded
shallowly below.  Byte strings are `List Nat`, machine integers are `Nat`,
fallible Rust computations become an explicit `RunResult` value that
distinguishes `Ok`, `Err` and a panic (a Rust `unwrap()` on `None`/`Err`,
or a failed `assert!`).  Stream I/O is modelled by an explicit stream
state: the bytes still to be read and the bytes written so far.  External
collaborators (IAS, AESM) are passed in as function arguments, mirroring
the points where the source awaits them.

Cryptographic primitives (SHA-256, AES-128-CMAC, P-256 DH, ECDSA) live in
the `sgx_crypto` and `ra_common` crates, which are not part of the given
sources; they are modelled from the specification (sections 4.1, 4.2 and
6) as concrete executable functions over an abstracted group, so that
every definition evaluates on concrete inputs.
-/

namespace SgxRa

/-! ## Byte-string helpers -/

/-- Little-endian encoding of `v` into exactly `k` bytes. -/
def natToBytes : Nat → Nat → List Nat
  | 0, _ => []
  | k + 1, v => v % 256 :: natToBytes k (v / 256)

/-- Little-endian decoding of a byte string. -/
def bytesToNat : List Nat → Nat
  | [] => 0
  | b :: bs => b + 256 * bytesToNat bs

/-- Slice `l[i .. i+n)` of a byte string. -/
def subBytes (l : List Nat) (i n : Nat) : List Nat := (l.drop i).take n

/-- Little-endian u16 read at offset `i`, as done by `read_u16::<LittleEndian>`. -/
def u16le (l : List Nat) (i : Nat) : Nat := l.getD i 0 + 256 * l.getD (i + 1) 0

/-- Overwrite the bytes of `l` starting at offset `i` with `v`. -/
def setBytes (l : List Nat) (i : Nat) (v : List Nat) : List Nat :=
  l.take i ++ v ++ l.drop (i + v.length)

/-! ## Modelled cryptographic primitives

SHA-256 and AES-128-CMAC are implemented in the `sgx_crypto` crate, which
is outside the given sources.  They are modelled from the spec as concrete
compression functions; every theorem below uses them only as opaque-but-
executable functions, never relying on properties a real hash lacks. -/

/-- Compression of the modelled hash: mixes the full byte content, the
length and a seed into one word. -/
def hashFold (seed : Nat) (msg : List Nat) : Nat :=
  (bytesToNat msg % 4294967291 + msg.length * 65537 + seed * 131 + 17) % 4294967296

/-- Modelled from the spec: SHA-256 (implemented in `sgx_crypto`, outside
the given sources), abstracted as a concrete 32-byte digest function. -/
def sha256 (msg : List Nat) : List Nat := natToBytes 32 (hashFold 2166136261 msg)

/-- The 16-byte AES-CMAC tag, modelled as a number below 2^32. -/
abbrev MacTag := Nat

/-- Modelled from the spec: AES-128-CMAC (implemented in `sgx_crypto`,
outside the given sources), abstracted as a concrete keyed compression. -/
def cmacTag (key : MacTag) (msg : List Nat) : MacTag :=
  hashFold (key % 4294967296 + 77) msg % 4294967296

/-- Serialization of a MAC tag into its 16 wire bytes. -/
def tagBytes (t : MacTag) : List Nat := natToBytes 16 t

/-! ## Modelled Diffie-Hellman group and ECDSA signatures

Spec section 4.2: the DHKE runs over NIST P-256.  The curve group is
outside the given sources (crate `sgx_crypto`); it is modelled from the
spec as the multiplicative action of scalars on residues modulo a fixed
modulus, with the x-coordinate serialization being the 32-byte
little-endian encoding of the residue.  The only facts used about it are
executability and commutativity of the two-scalar action, which is the
defining property the spec relies on for KDK agreement. -/

/-- Modulus of the modelled DH group. -/
def dhMod : Nat := 65521

/-- Generator of the modelled DH group. -/
def dhBase : Nat := 9

/-- Scalar multiplication in the modelled group. -/
def pointMul (k p : Nat) : Nat := k * p % dhMod

/-- Public key of a scalar: the scalar action on the generator. -/
def pubOf (priv : Nat) : Nat := pointMul priv dhBase

/-- Wire serialization of a group element (spec: 64-byte X‖Y point;
modelled as the 32-byte encoding of the single coordinate). -/
def pointBytesN (p : Nat) : List Nat := natToBytes 32 p

/-- Wire deserialization of a group element. -/
def pointOfBytes (bs : List Nat) : Nat := bytesToNat bs % dhMod

/-- Serialized public key of a scalar. -/
def pubBytes (priv : Nat) : List Nat := pointBytesN (pubOf priv)

/-- Modelled ECDSA signature: a symbolic (signer, message) pair.  The
implementation is in `sgx_crypto`, outside the given sources; the model
captures exactly what the spec needs, namely that verification succeeds
for the matching verification key and message and fails otherwise. -/
structure SigMsg where
  signer : Nat
  message : List Nat
deriving DecidableEq

/-- Modelled ECDSA signing. -/
def ecdsaSign (sk : Nat) (msg : List Nat) : SigMsg := ⟨sk, msg⟩

/-- Ephemeral DH keypair holder of `sgx_crypto::key_exchange`. -/
structure OneWayAuthenticatedDHKE where
  priv : Nat
deriving DecidableEq

/-- Public half of the ephemeral keypair, as raw wire bytes. -/
def OneWayAuthenticatedDHKE.get_public_key (ke : OneWayAuthenticatedDHKE) : List Nat :=
  pubBytes ke.priv

/-- Modelled from the spec (section 4.2), signer side: derive the KDK as
CMAC with zero key over the shared point, and sign `g_b ‖ g_a`. -/
def sign_and_derive (ke : OneWayAuthenticatedDHKE) (g_a : List Nat) (sk : Nat) :
    MacTag × SigMsg :=
  (cmacTag 0 (pointBytesN (pointMul ke.priv (pointOfBytes g_a))),
   ecdsaSign sk (ke.get_public_key ++ g_a))

/-- Modelled from the spec (section 4.2), verifier side: check the
signature over `g_b ‖ g_a` (where `g_a` is the own public key) and derive
the KDK identically; `none` models the SignatureInvalid failure. -/
def verify_and_derive (ke : OneWayAuthenticatedDHKE) (g_b : List Nat)
    (sig : SigMsg) (vk : Nat) : Option MacTag :=
  if sig.signer = vk ∧ sig.message = g_b ++ ke.get_public_key then
    some (cmacTag 0 (pointBytesN (pointMul ke.priv (pointOfBytes g_b))))
  else none

/-! ## Key-derivation kernel (spec section 4.1)

The function `derive_secret_keys` lives in the `ra_common` crate, outside
the given sources; modelled from the spec: each subkey is
`CMAC(KDK, 0x01 ‖ label ‖ 0x00 ‖ 0x80 ‖ 0x00)`. -/

/-- KDF input block for one label. -/
def kdfMsg (label : List Nat) : List Nat := 1 :: (label ++ [0, 128, 0])

/-- Modelled from the spec (section 4.1): derive `(SMK, SK, MK, VK)` from
the KDK; labels are the ASCII bytes of SMK, SK, MK, VK. -/
def derive_secret_keys (kdk : MacTag) : MacTag × MacTag × MacTag × MacTag :=
  (cmacTag kdk (kdfMsg [83, 77, 75]),
   cmacTag kdk (kdfMsg [83, 75]),
   cmacTag kdk (kdfMsg [77, 75]),
   cmacTag kdk (kdfMsg [86, 75]))

/-! ## Protocol messages (`ra_common::msg`) -/

/-- MSG0: extended EPID group id. -/
structure RaMsg0 where
  exgid : Nat
deriving DecidableEq

/-- MSG1: EPID group id and enclave DH public key. -/
structure RaMsg1 where
  gid : List Nat
  g_a : List Nat
deriving DecidableEq

/-- MSG2: SP DH public key, SPID, quote type, KDF id, signature over
`g_b ‖ g_a`, MAC under SMK, optional signature revocation list. -/
structure RaMsg2 where
  g_b : List Nat
  spid : List Nat
  quote_type : Nat
  kdf_id : Nat
  sign_gb_ga : SigMsg
  mac : MacTag
  sig_rl : Option (List Nat)
deriving DecidableEq

/-- MSG3: MAC under SMK, optional platform-service security property,
and the 432-byte quote. -/
structure RaMsg3 where
  mac : MacTag
  ps_sec_prop : Option (List Nat)
  quote : List Nat
deriving DecidableEq

/-- MSG4: the SP verdict. -/
structure RaMsg4 where
  is_enclave_trusted : Bool
  is_pse_manifest_trusted : Option Bool
  pib : Option (List Nat)
deriving DecidableEq

/-- Canonical encoding of an optional blob (spec section 6): a presence
byte, then an 8-byte length prefix and the payload. -/
def encodeOptBytes : Option (List Nat) → List Nat
  | none => [0]
  | some l => 1 :: (natToBytes 8 l.length ++ l)

/-- Serialization of the modelled signature. -/
def sigBytes (s : SigMsg) : List Nat := natToBytes 32 s.signer ++ s.message

/-- MAC input of MSG2 (spec sections 3 and 4.5: every field after the
MAC, in declaration order). -/
def msg2AuthBytes (m : RaMsg2) : List Nat :=
  m.g_b ++ m.spid ++ natToBytes 2 m.quote_type ++ natToBytes 2 m.kdf_id ++
    sigBytes m.sign_gb_ga ++ encodeOptBytes m.sig_rl

/-- MSG2 MAC verification under the session MAC key, as done by
`RaMsg2::verify_mac` in `ra_common` (modelled from the spec). -/
def verifyMacMsg2 (smk : MacTag) (m : RaMsg2) : Bool :=
  m.mac = cmacTag smk (msg2AuthBytes m)

/-- Constructor `RaMsg2::new`: assemble the message and stamp its MAC
under SMK; `kdf_id` is fixed to 1 (AES-CMAC). -/
def mkRaMsg2 (smk : MacTag) (g_b spid : List Nat) (quote_type : Nat)
    (sign_gb_ga : SigMsg) (sig_rl : Option (List Nat)) : RaMsg2 :=
  let base : RaMsg2 :=
    { g_b := g_b, spid := spid, quote_type := quote_type, kdf_id := 1,
      sign_gb_ga := sign_gb_ga, mac := 0, sig_rl := sig_rl }
  { base with mac := cmacTag smk (msg2AuthBytes base) }

/-- MAC input of MSG3: the fields after the MAC in declaration order. -/
def msg3AuthBytes (m : RaMsg3) : List Nat := encodeOptBytes m.ps_sec_prop ++ m.quote

/-- MSG3 MAC verification under the session MAC key (`RaMsg3::verify_mac`). -/
def verifyMacMsg3 (smk : MacTag) (m : RaMsg3) : Bool :=
  m.mac = cmacTag smk (msg3AuthBytes m)

/-- Constructor `RaMsg3::new`: stamp the MAC over the remaining fields. -/
def mkRaMsg3 (smk : MacTag) (ps_sec_prop : Option (List Nat)) (quote : List Nat) :
    RaMsg3 :=
  { mac := cmacTag smk (msg3AuthBytes { mac := 0, ps_sec_prop := ps_sec_prop, quote := quote }),
    ps_sec_prop := ps_sec_prop, quote := quote }

/-! ## Stream model

A bidirectional byte stream is modelled by the bytes still available for
reading and the bytes written so far.  `read_exact(..).unwrap()` panics
when fewer bytes are available; writes are modelled as infallible
appends. -/

/-- State of one byte stream. -/
structure StreamSt where
  inBytes : List Nat
  outBytes : List Nat
deriving DecidableEq

/-- Blocking exact read of `n` bytes; `none` models the panicking
`read_exact(..).unwrap()` on a short stream. -/
def readExact (s : StreamSt) (n : Nat) : Option (List Nat × StreamSt) :=
  if n ≤ s.inBytes.length then
    some (s.inBytes.take n, { s with inBytes := s.inBytes.drop n })
  else none

/-- Infallible model of `write_all`. -/
def writeAll (s : StreamSt) (bs : List Nat) : StreamSt :=
  { s with outBytes := s.outBytes ++ bs }

/-! ## Error types and run results -/

/-- Error type of the ra-sp crate (its `error.rs` is outside the given
sources; variants are modelled from the spec error list, section 7). -/
inductive SpRaError where
  | IoError
  | CryptoError
  | IntegrityError
  | SigstructMismatched
  | EnclaveInDebugMode
  | EnclaveNotTrusted
  | PseNotTrusted
  | IasError
deriving DecidableEq

/-- Error type of the ra-enclave crate (modelled from the spec error
list plus the variant named in the source). -/
inductive EnclaveRaError where
  | IoError
  | CryptoError
  | SignatureInvalid
  | IntegrityError
  | LocalAttestation
  | ReportDataLongerThan64Bytes
  | EnclaveNotTrusted
  | PseNotTrusted
deriving DecidableEq

/-- Error type of the ra-client crate. -/
inductive ClientRaError where
  | IoError
  | AesmError
  | EnclaveNotTrusted
  | PseNotTrusted
deriving DecidableEq

/-- Result of running a fallible, possibly panicking Rust computation:
an `Ok` value with the final state, an `Err` with the state reached, or a
panic (`unwrap()` of `None`/`Err`, a failed `assert!`). -/
inductive RunResult (ε σ α : Type) where
  | ok : σ → α → RunResult ε σ α
  | err : σ → ε → RunResult ε σ α
  | panic : RunResult ε σ α
deriving DecidableEq

/-- State component of a run result, with a default for the panic case. -/
def RunResult.stateOf {ε σ α : Type} (d : σ) : RunResult ε σ α → σ
  | .ok s _ => s
  | .err s _ => s
  | .panic => d

/-- Value component of a run result, with a default. -/
def RunResult.valueOf {ε σ α : Type} (d : α) : RunResult ε σ α → α
  | .ok _ a => a
  | _ => d

/-- Whether a run ended in `Ok`. -/
def RunResult.isOk {ε σ α : Type} : RunResult ε σ α → Bool
  | .ok _ _ => true
  | _ => false

/-- The error of a run that ended in `Err`, if any. -/
def RunResult.errKind {ε σ α : Type} : RunResult ε σ α → Option ε
  | .err _ e => some e
  | _ => none

/-- Whether a run ended in a panic. -/
def RunResult.isPanic {ε σ α : Type} : RunResult ε σ α → Bool
  | .panic => true
  | _ => false

/-! ## Rust slice binary search

`process_msg_3` decides trust membership with `slice::binary_search`
after the option lists were sorted once in `init`.  The embedding uses
the standard halving search below; only its boolean outcome (`is_ok()`)
is consumed by the source. -/

/-- Fuelled halving search; the fuel only bounds the recursion depth and
never runs out when it starts at the list length. -/
def rustBinarySearchAux {α : Type} [LinearOrder α] : Nat → List α → α → Bool
  | 0, _, _ => false
  | fuel + 1, l, x =>
    if l.length = 0 then false
    else if l.getD (l.length / 2) x < x then
      rustBinarySearchAux fuel (l.drop (l.length / 2 + 1)) x
    else if x < l.getD (l.length / 2) x then
      rustBinarySearchAux fuel (l.take (l.length / 2)) x
    else true

/-- Halving binary search over a sorted list, returning whether the
needle was found (the `is_ok()` view of Rust `slice::binary_search`). -/
def rustBinarySearch {α : Type} [LinearOrder α] (l : List α) (x : α) : Bool :=
  rustBinarySearchAux l.length l x

/-! ## IAS interface (`ra_sp::ias`, outside the given sources)

The attestation verification report returned by
`verify_attestation_evidence`, modelled from the spec (section 6). -/

/-- IAS attestation verification report. -/
structure AttestationResult where
  isv_enclave_quote_status : String
  pse_manifest_status : Option String
  platform_info_blob : Option (List Nat)
  epid_pseudonym : Option String
deriving DecidableEq

/-! ## SP context (`ra-sp/src/context.rs`) -/

/-- SIGSTRUCT fields read by the SP (parsed by the external `sgxs`
crate; field set from the spec, section 6). -/
structure Sigstruct where
  enclavehash : List Nat
  modulus : List Nat
  isvprodid : Nat
  isvsvn : Nat
  attributes_flags : Nat
deriving DecidableEq

/-- The `sgx_isa::AttributesFlags::DEBUG` bit. -/
def DEBUG_FLAG : Nat := 2

/-- SP configuration fields used by `context.rs`. -/
structure SpConfig where
  linkable : Bool
  random_nonce : Bool
  use_platform_service : Bool
  spid : List Nat
  quote_trust_options : List String
  pse_trust_options : Option (List String)
deriving DecidableEq

/-- Session context of the service provider. -/
structure SpRaContext where
  config : SpConfig
  sigstruct : Sigstruct
  sp_private_key : Nat
  key_exchange : Option OneWayAuthenticatedDHKE
  verification_digest : Option (List Nat)
  smk : Option MacTag
  sk_mk : Option (MacTag × MacTag)
deriving DecidableEq

/-- Final result of a successful SP attestation. -/
structure SpAttestationResult where
  epid_pseudonym : Option String
  signing_key : MacTag
  master_key : MacTag
deriving DecidableEq

/-- Embedding of `SpRaContext::init`.  File loading and PEM/SIGSTRUCT
parsing are external; the loaded signing key, generated keypair and
parsed SIGSTRUCT enter as arguments.  The three `assert!` calls are
modelled by the `none` outcome; the two trust-option lists are sorted
once, as in the source. -/
def SpRaContext.init (config : SpConfig) (sp_private_key : Nat)
    (kp : OneWayAuthenticatedDHKE) (sigstruct : Sigstruct) :
    Option SpRaContext :=
  if config.linkable ∧ ¬config.random_nonce ∧ ¬config.use_platform_service then
    some
      { config :=
          { config with
            quote_trust_options := List.insertionSort (· ≤ ·) config.quote_trust_options,
            pse_trust_options := config.pse_trust_options.map (List.insertionSort (· ≤ ·)) },
        sigstruct := sigstruct,
        sp_private_key := sp_private_key,
        key_exchange := some kp,
        verification_digest := none,
        smk := none,
        sk_mk := none }
  else none

/-- Embedding of `SpRaContext::process_msg_1`.  The IAS `get_sig_rl`
call is external and enters as its awaited outcome `sigRl`; it is awaited
after the session state is stored, exactly as in the source. -/
def SpRaContext.process_msg_1 (sigRl : Except SpRaError (Option (List Nat)))
    (ctx : SpRaContext) (msg1 : RaMsg1) :
    RunResult SpRaError SpRaContext RaMsg2 :=
  match ctx.key_exchange with
  | none => .panic
  | some ke =>
    let g_b := ke.get_public_key
    let kdkSig := sign_and_derive ke msg1.g_a ctx.sp_private_key
    let keys := derive_secret_keys kdkSig.1
    let smk := keys.1
    let sk := keys.2.1
    let mk := keys.2.2.1
    let vk := keys.2.2.2
    let verification_digest := sha256 (msg1.g_a ++ g_b ++ tagBytes vk)
    let ctx1 :=
      { ctx with
        key_exchange := none,
        smk := some smk,
        sk_mk := some (sk, mk),
        verification_digest := some verification_digest }
    match sigRl with
    | .error e => .err ctx1 e
    | .ok srl =>
      .ok ctx1 (mkRaMsg2 smk g_b ctx.config.spid (if ctx.config.linkable then 1 else 0)
        kdkSig.2 srl)

/-- Embedding of `SpRaContext::process_msg_3`.  The parameter
`debugAssertions` is `cfg!(debug_assertions)`; `ias` is the external
`verify_attestation_evidence` call, applied to the submitted quote.  The
source never stores into the session state here, so the input context is
returned unchanged on every non-panicking path. -/
def SpRaContext.process_msg_3 (debugAssertions : Bool)
    (ias : List Nat → Except SpRaError AttestationResult)
    (ctx : SpRaContext) (msg3 : RaMsg3) :
    RunResult SpRaError SpRaContext (RaMsg4 × Option String) :=
  match ctx.smk with
  | none => .panic
  | some smk =>
    if verifyMacMsg3 smk msg3 = false then .err ctx .IntegrityError
    else
      let quote_digest := subBytes msg3.quote 368 32
      match ctx.verification_digest with
      | none => .panic
      | some vd =>
        if vd ≠ quote_digest then .err ctx .IntegrityError
        else
          match ias msg3.quote with
          | .error e => .err ctx e
          | .ok ar =>
            let mrenclave := subBytes msg3.quote 112 32
            let mrsigner := subBytes msg3.quote 176 32
            let isvprodid := u16le msg3.quote 304
            let isvsvn := u16le msg3.quote 306
            if mrenclave ≠ ctx.sigstruct.enclavehash ∨
                mrsigner ≠ sha256 ctx.sigstruct.modulus ∨
                isvprodid ≠ ctx.sigstruct.isvprodid ∨
                isvsvn ≠ ctx.sigstruct.isvsvn then
              .err ctx .SigstructMismatched
            else if debugAssertions = false ∧
                Nat.land DEBUG_FLAG ctx.sigstruct.attributes_flags ≠ 0 then
              .err ctx .EnclaveInDebugMode
            else
              let quote_status := ar.isv_enclave_quote_status
              let is_enclave_trusted : Bool :=
                quote_status = "OK" ∨
                  rustBinarySearch ctx.config.quote_trust_options quote_status = true
              match ar.pse_manifest_status with
              | none =>
                .ok ctx ({ is_enclave_trusted := is_enclave_trusted,
                           is_pse_manifest_trusted := none,
                           pib := ar.platform_info_blob }, ar.epid_pseudonym)
              | some status =>
                if status = "OK" then
                  .ok ctx ({ is_enclave_trusted := is_enclave_trusted,
                             is_pse_manifest_trusted := some true,
                             pib := ar.platform_info_blob }, ar.epid_pseudonym)
                else
                  match ctx.config.pse_trust_options with
                  | none => .panic
                  | some opts =>
                    .ok ctx ({ is_enclave_trusted := is_enclave_trusted,
                               is_pse_manifest_trusted :=
                                 some (rustBinarySearch opts status),
                               pib := ar.platform_info_blob }, ar.epid_pseudonym)

/-- Embedding of `SpRaContext::do_attestation`.  The three inbound
messages enter as the outcomes of their `bincode::deserialize_from`
calls; serialization of outbound messages is infallible in the model. -/
def SpRaContext.do_attestation (debugAssertions : Bool)
    (sigRl : Except SpRaError (Option (List Nat)))
    (ias : List Nat → Except SpRaError AttestationResult)
    (ctx : SpRaContext)
    (msg0R : Except SpRaError RaMsg0) (msg1R : Except SpRaError RaMsg1)
    (msg3R : Except SpRaError RaMsg3) :
    RunResult SpRaError SpRaContext SpAttestationResult :=
  match msg0R with
  | .error e => .err ctx e
  | .ok _ =>
    match msg1R with
    | .error e => .err ctx e
    | .ok msg1 =>
      match ctx.process_msg_1 sigRl msg1 with
      | .panic => .panic
      | .err c e => .err c e
      | .ok c1 _msg2 =>
        match msg3R with
        | .error e => .err c1 e
        | .ok msg3 =>
          match c1.process_msg_3 debugAssertions ias msg3 with
          | .panic => .panic
          | .err c e => .err c e
          | .ok c2 out =>
            if out.1.is_enclave_trusted = false then .err c2 .EnclaveNotTrusted
            else
              match out.1.is_pse_manifest_trusted with
              | some false => .err c2 .EnclaveNotTrusted
              | _ =>
                match c2.sk_mk with
                | none => .panic
                | some skmk =>
                  .ok { c2 with sk_mk := none }
                    { epid_pseudonym := out.2,
                      signing_key := skmk.1, master_key := skmk.2 }

/-! ## Enclave context (`ra-enclave/src/context.rs`) -/

/-- Session context of the enclave. -/
structure EnclaveRaContext where
  key_exchange : Option OneWayAuthenticatedDHKE
  sp_vkey : Nat
deriving DecidableEq

/-- Embedding of `EnclaveRaContext::init`: PEM parsing and keypair
generation are external; their outcomes enter as arguments. -/
def EnclaveRaContext.init (sp_vkey : Nat) (kp : OneWayAuthenticatedDHKE) :
    EnclaveRaContext :=
  { key_exchange := some kp, sp_vkey := sp_vkey }

/-- Size of a serialized `Targetinfo` (`Targetinfo::UNPADDED_SIZE`). -/
def TARGETINFO_SIZE : Nat := 512

/-- Size of a serialized `Report` (`Report::UNPADDED_SIZE`). -/
def REPORT_SIZE : Nat := 432

/-- Size of a serialized `Quote` (`size_of::<Quote>()`). -/
def QUOTE_SIZE : Nat := 432

/-- Modelled from the spec: `Report::for_target` (crate `sgx_isa`,
outside the given sources), building the 432-byte REPORT aimed at the
quoting enclave from the target info and the 64-byte report data. -/
def reportFor (target_info report_data : List Nat) : List Nat :=
  (report_data ++ sha256 target_info ++ List.replicate REPORT_SIZE 0).take REPORT_SIZE

/-- Embedding of `EnclaveRaContext::get_quote`.  The QE-report check
`local_attestation::verify_local_attest` is in a module outside the given
sources and enters as the predicate `vla`. -/
def EnclaveRaContext.get_quote (vla : List Nat → Bool)
    (report_data : List Nat) (client_stream : StreamSt) :
    RunResult EnclaveRaError StreamSt (List Nat) :=
  if report_data.length > 64 then .err client_stream .ReportDataLongerThan64Bytes
  else
    let rdata := report_data ++ List.replicate (64 - report_data.length) 0
    match readExact client_stream TARGETINFO_SIZE with
    | none => .panic
    | some ti =>
      let s1 := writeAll ti.2 (reportFor ti.1 rdata)
      match readExact s1 QUOTE_SIZE with
      | none => .panic
      | some q =>
        match readExact q.2 REPORT_SIZE with
        | none => .panic
        | some qe =>
          if vla qe.1 then .ok qe.2 q.1
          else .err qe.2 .LocalAttestation

/-- Embedding of `EnclaveRaContext::process_msg_2`.  The inbound MSG2
enters as the outcome of its panicking `bincode` deserialization (`none`
models a malformed stream, which the source unwraps into a panic).  The
state is the pair of the context and the client stream. -/
def EnclaveRaContext.process_msg_2 (vla : List Nat → Bool)
    (ctx : EnclaveRaContext) (msg2R : Option RaMsg2) (client_stream : StreamSt) :
    RunResult EnclaveRaError (EnclaveRaContext × StreamSt) (MacTag × MacTag) :=
  match ctx.key_exchange with
  | none => .panic
  | some ke =>
    let g_a := ke.get_public_key
    let s1 := writeAll client_stream g_a
    match msg2R with
    | none => .panic
    | some msg2 =>
      let ctx1 := { ctx with key_exchange := none }
      match verify_and_derive ke msg2.g_b msg2.sign_gb_ga ctx.sp_vkey with
      | none => .panic
      | some kdk =>
        let keys := derive_secret_keys kdk
        let smk := keys.1
        let sk := keys.2.1
        let mk := keys.2.2.1
        let vk := keys.2.2.2
        if verifyMacMsg2 smk msg2 = false then .err (ctx1, s1) .IntegrityError
        else
          let verification_digest := sha256 (g_a ++ msg2.g_b ++ tagBytes vk)
          match EnclaveRaContext.get_quote vla verification_digest s1 with
          | .panic => .panic
          | .err s e => .err (ctx1, s) e
          | .ok s2 quote =>
            let msg3 := mkRaMsg3 smk none quote
            let s3 := writeAll s2 (tagBytes msg3.mac)
            .ok (ctx1, s3) (sk, mk)

/-- Embedding of `EnclaveRaContext::do_attestation`.  The source unwraps
the result of `process_msg_2` and the MSG4 deserialization, so an `Err`
from the former and a malformed MSG4 both panic. -/
def EnclaveRaContext.do_attestation (vla : List Nat → Bool)
    (ctx : EnclaveRaContext) (msg2R : Option RaMsg2) (client_stream : StreamSt)
    (msg4R : Option RaMsg4) :
    RunResult EnclaveRaError StreamSt (MacTag × MacTag) :=
  match ctx.process_msg_2 vla msg2R client_stream with
  | .panic => .panic
  | .err _ _ => .panic
  | .ok st skmk =>
    match msg4R with
    | none => .panic
    | some msg4 =>
      if msg4.is_enclave_trusted = false then .err st.2 .EnclaveNotTrusted
      else
        match msg4.is_pse_manifest_trusted with
        | some false => .err st.2 .PseNotTrusted
        | _ => .ok st.2 skmk

/-! ## Client context (`ra-client/src/context.rs`) -/

/-- Outcome of `AesmClient::init_quote` (external AESM daemon). -/
structure QuoteInfoM where
  gid : List Nat
  target_info : List Nat
deriving DecidableEq

/-- Session context of the client: the AESM handle and the cached
quote info. -/
structure ClientRaContext where
  quote_info : QuoteInfoM
deriving DecidableEq

/-- Serialization of MSG2 used when the client forwards it verbatim to
the enclave. -/
def encodeMsg2 (m : RaMsg2) : List Nat :=
  m.g_b ++ m.spid ++ natToBytes 2 m.quote_type ++ natToBytes 2 m.kdf_id ++
    sigBytes m.sign_gb_ga ++ tagBytes m.mac ++ encodeOptBytes m.sig_rl

/-- Serialization of MSG4 used when the client forwards it to the
enclave. -/
def encodeMsg4 (m : RaMsg4) : List Nat :=
  (if m.is_enclave_trusted then [1] else [0]) ++
    (match m.is_pse_manifest_trusted with
      | none => [0]
      | some b => [1, if b then 1 else 0]) ++
    encodeOptBytes m.pib

/-- Embedding of `ClientRaContext::get_quote`.  The two AESM calls are
external and enter as their outcomes; `quote.copy_from_slice` panics
unless the returned quote has exactly `QUOTE_SIZE` bytes. -/
def ClientRaContext.get_quote
    (aesmInitQuote : Except ClientRaError QuoteInfoM)
    (aesmGetQuote : List Nat → List Nat → List Nat →
      Except ClientRaError (List Nat × List Nat))
    (spid sig_rl : List Nat) (enclave_stream : StreamSt) :
    RunResult ClientRaError StreamSt (List Nat) :=
  match aesmInitQuote with
  | .error e => .err enclave_stream e
  | .ok quote_info =>
    let s0 := writeAll enclave_stream quote_info.target_info
    match readExact s0 REPORT_SIZE with
    | none => .panic
    | some rep =>
      match aesmGetQuote rep.1 spid sig_rl with
      | .error e => .err rep.2 e
      | .ok out =>
        let s2 := writeAll (writeAll rep.2 out.1) out.2
        if out.1.length = QUOTE_SIZE then .ok s2 out.1 else .panic

/-- Embedding of `ClientRaContext::process_msg_2`: forward MSG2 to the
enclave, obtain the quote via AESM, read the 16-byte MSG3 MAC from the
enclave, and assemble MSG3. -/
def ClientRaContext.process_msg_2
    (aesmInitQuote : Except ClientRaError QuoteInfoM)
    (aesmGetQuote : List Nat → List Nat → List Nat →
      Except ClientRaError (List Nat × List Nat))
    (msg2 : RaMsg2) (enclave_stream : StreamSt) :
    RunResult ClientRaError StreamSt RaMsg3 :=
  let s0 := writeAll enclave_stream (encodeMsg2 msg2)
  let sig_rl := msg2.sig_rl.getD []
  match ClientRaContext.get_quote aesmInitQuote aesmGetQuote msg2.spid sig_rl s0 with
  | .panic => .panic
  | .err s e => .err s e
  | .ok s1 quote =>
    match readExact s1 16 with
    | none => .panic
    | some macBytes =>
      .ok macBytes.2
        { mac := bytesToNat macBytes.1, ps_sec_prop := none, quote := quote }

/-- Embedding of `ClientRaContext::do_attestation`.  The two inbound SP
messages enter as their `bincode` outcomes; the reads on the enclave
stream are explicit; writes to the SP stream are infallible in the
model.  `quote_info.gid().try_into().unwrap()` panics unless the cached
group id has exactly 4 bytes. -/
def ClientRaContext.do_attestation
    (aesmInitQuote : Except ClientRaError QuoteInfoM)
    (aesmGetQuote : List Nat → List Nat → List Nat →
      Except ClientRaError (List Nat × List Nat))
    (ctx : ClientRaContext)
    (msg2R : Except ClientRaError RaMsg2) (msg4R : Except ClientRaError RaMsg4)
    (enclave_stream : StreamSt) :
    RunResult ClientRaError StreamSt Unit :=
  match readExact enclave_stream 64 with
  | none => .panic
  | some ga =>
    if ctx.quote_info.gid.length ≠ 4 then .panic
    else
      match msg2R with
      | .error e => .err ga.2 e
      | .ok msg2 =>
        match ClientRaContext.process_msg_2 aesmInitQuote aesmGetQuote msg2 ga.2 with
        | .panic => .panic
        | .err s e => .err s e
        | .ok s2 _msg3 =>
          match msg4R with
          | .error e => .err s2 e
          | .ok msg4 =>
            let s3 := writeAll s2 (encodeMsg4 msg4)
            if msg4.is_enclave_trusted = false then .err s3 .EnclaveNotTrusted
            else
              match msg4.is_pse_manifest_trusted with
              | some false => .err s3 .PseNotTrusted
              | _ => .ok s3 ()

/-! ## Derived view of `get_quote` used to state the padding property -/

/-- Tail of `EnclaveRaContext::get_quote` once the 64-byte report-data
buffer has been filled: exchange TARGETINFO and REPORT, read quote and QE
report, check local attestation. -/
def getQuoteWithBuffer (vla : List Nat → Bool) (buf : List Nat)
    (client_stream : StreamSt) : RunResult EnclaveRaError StreamSt (List Nat) :=
  match readExact client_stream TARGETINFO_SIZE with
  | none => .panic
  | some ti =>
    let s1 := writeAll ti.2 (reportFor ti.1 buf)
    match readExact s1 QUOTE_SIZE with
    | none => .panic
    | some q =>
      match readExact q.2 REPORT_SIZE with
      | none => .panic
      | some qe =>
        if vla qe.1 then .ok qe.2 q.1
        else .err qe.2 .LocalAttestation

/-! ## Concrete fixtures

Closed inputs used by the witness and counterexample theorems below.
Every fixture is executable, so the gate can evaluate the embedded
functions on it. -/

/-- Local-attestation stub that accepts every QE report. -/
def vlaTrue : List Nat → Bool := fun _ => true

/-- Fixture SIGSTRUCT modulus. -/
def modulusFx : List Nat := List.replicate 384 3

/-- Fixture SIGSTRUCT with zero attribute flags matching the zero quote. -/
def sgZero : Sigstruct :=
  { enclavehash := List.replicate 32 0, modulus := modulusFx,
    isvprodid := 0, isvsvn := 0, attributes_flags := 0 }

/-- Fixture SIGSTRUCT whose attribute flags carry the DEBUG bit. -/
def sgDebug : Sigstruct := { sgZero with attributes_flags := DEBUG_FLAG }

/-- Fixture quote consistent with `sgZero` except for the binding digest. -/
def quoteZ : List Nat := setBytes (List.replicate 432 0) 176 (sha256 modulusFx)

/-- Fixture quote that additionally carries the DEBUG bit inside the
attribute-flags bytes of its report body (offset 96, by the same SGX
quote layout that places MRENCLAVE at offset 112). -/
def quoteC1 : List Nat := setBytes quoteZ 96 [DEBUG_FLAG]

/-- IAS stub answering OK with no PSE manifest status. -/
def iasOkFx : List Nat → Except SpRaError AttestationResult :=
  fun _ => .ok { isv_enclave_quote_status := "OK", pse_manifest_status := none,
                 platform_info_blob := none, epid_pseudonym := none }

/-- Generic SP session-state fixture around a given SIGSTRUCT, trust
options and stored verification digest. -/
def mkSpFixtureCtx (sg : Sigstruct) (qopts : List String)
    (popts : Option (List String)) (vd : List Nat) : SpRaContext :=
  { config := { linkable := true, random_nonce := false,
                use_platform_service := false, spid := List.replicate 16 1,
                quote_trust_options := qopts, pse_trust_options := popts },
    sigstruct := sg, sp_private_key := 9, key_exchange := some ⟨4⟩,
    verification_digest := some vd, smk := some 99, sk_mk := some (7, 8) }

/-- Session state for the C1 counterexample: SIGSTRUCT flags clear. -/
def ctxC1 : SpRaContext := mkSpFixtureCtx sgZero [] (some []) (subBytes quoteC1 368 32)

/-- MSG3 for the C1 counterexample, MAC-stamped under the stored SMK. -/
def msg3C1 : RaMsg3 := mkRaMsg3 99 none quoteC1

/-- Session state for the C1 amended-claim witness: DEBUG in SIGSTRUCT. -/
def ctxC1w : SpRaContext := mkSpFixtureCtx sgDebug [] (some []) (subBytes quoteZ 368 32)

/-- MSG3 for the C1 amended-claim witness. -/
def msg3C1w : RaMsg3 := mkRaMsg3 99 none quoteZ

/-- Session state for the C5 witness. -/
def ctxC5 : SpRaContext :=
  mkSpFixtureCtx sgZero ["GROUP_OUT_OF_DATE"] none (subBytes quoteZ 368 32)

/-- MSG3 for the C5 witness. -/
def msg3C5 : RaMsg3 := mkRaMsg3 99 none quoteZ

/-- IAS stub reporting a permissively trusted non-OK quote status. -/
def iasC5 : List Nat → Except SpRaError AttestationResult :=
  fun _ => .ok { isv_enclave_quote_status := "GROUP_OUT_OF_DATE",
                 pse_manifest_status := none, platform_info_blob := none,
                 epid_pseudonym := none }

/-- Default MSG4 pair used as the `valueOf` fallback. -/
def dfltMsg4Out : RaMsg4 × Option String :=
  ({ is_enclave_trusted := false, is_pse_manifest_trusted := none, pib := none }, none)

/-- Session state for the C6 witness. -/
def ctxC6 : SpRaContext := mkSpFixtureCtx sgZero [] (some []) (subBytes quoteZ 368 32)

/-- MSG3 whose MAC is off by one. -/
def msg3C6a : RaMsg3 :=
  { mkRaMsg3 99 none quoteZ with mac := (mkRaMsg3 99 none quoteZ).mac + 1 }

/-- MSG3 with a valid MAC but a quote whose binding digest bytes differ
from the stored verification digest. -/
def msg3C6b : RaMsg3 := mkRaMsg3 99 none (setBytes quoteZ 368 (List.replicate 32 7))

/-- Session state for the C7 witness: expected MRENCLAVE differs. -/
def ctxC7 : SpRaContext :=
  mkSpFixtureCtx { sgZero with enclavehash := List.replicate 32 5 } [] (some [])
    (subBytes quoteZ 368 32)

/-- MSG3 for the C7 witness. -/
def msg3C7 : RaMsg3 := mkRaMsg3 99 none quoteZ

/-- IAS stub reporting a non-OK PSE manifest status. -/
def iasPseBad : List Nat → Except SpRaError AttestationResult :=
  fun _ => .ok { isv_enclave_quote_status := "OK", pse_manifest_status := some "BAD",
                 platform_info_blob := none, epid_pseudonym := none }

/-- Session state for the C9 reachability witness: no PSE trust options. -/
def ctxC9a : SpRaContext := mkSpFixtureCtx sgZero [] none (subBytes quoteZ 368 32)

/-- Session state for the C9 safety witness: empty PSE trust options. -/
def ctxC9b : SpRaContext := mkSpFixtureCtx sgZero [] (some []) (subBytes quoteZ 368 32)

/-- MSG3 for the C9 witness. -/
def msg3C9 : RaMsg3 := mkRaMsg3 99 none quoteZ

/-- Fresh SP context used for full-protocol runs (C2, C4, C8): the state
an `init` call produces, with ephemeral scalar 4 and signing key 9. -/
def ctxC4 : SpRaContext :=
  { config := { linkable := true, random_nonce := false,
                use_platform_service := false, spid := List.replicate 16 1,
                quote_trust_options := [], pse_trust_options := some [] },
    sigstruct := sgZero, sp_private_key := 9, key_exchange := some ⟨4⟩,
    verification_digest := none, smk := none, sk_mk := none }

/-- MSG1 carrying the enclave public key for scalar 3. -/
def msg1C4 : RaMsg1 := { gid := [0, 0, 0, 0], g_a := pubBytes 3 }

/-- The MSG1-processing run shared by the C2, C4 and C8 fixtures. -/
def spRun1C4 : RunResult SpRaError SpRaContext RaMsg2 :=
  ctxC4.process_msg_1 (Except.ok none) msg1C4

/-- SP state after the fixture MSG1 run. -/
def ctx1C4 : SpRaContext := spRun1C4.stateOf ctxC4

/-- Placeholder MSG2 used as a `valueOf` fallback. -/
def dummyMsg2 : RaMsg2 :=
  { g_b := [], spid := [], quote_type := 0, kdf_id := 0,
    sign_gb_ga := ⟨0, []⟩, mac := 0, sig_rl := none }

/-- The MSG2 produced by the fixture MSG1 run. -/
def msg2C4 : RaMsg2 := spRun1C4.valueOf dummyMsg2

/-- SMK stored by the fixture MSG1 run. -/
def smkC4 : MacTag := ctx1C4.smk.getD 0

/-- Verification digest stored by the fixture MSG1 run. -/
def vdC4 : List Nat := ctx1C4.verification_digest.getD []

/-- Fixture quote whose binding digest matches the stored digest of the
fixture session. -/
def quoteC4 : List Nat :=
  setBytes (setBytes (List.replicate 432 0) 176 (sha256 modulusFx)) 368 vdC4

/-- MSG3 of the fixture session, MAC-stamped under the session SMK. -/
def msg3C4 : RaMsg3 := mkRaMsg3 smkC4 none quoteC4

/-- Enclave context paired with the fixture SP context. -/
def ctxEC2 : EnclaveRaContext := { key_exchange := some ⟨3⟩, sp_vkey := 9 }

/-- Enclave-side client stream with enough bytes for the quote exchange. -/
def stC2 : StreamSt := { inBytes := List.replicate 1376 0, outBytes := [] }

/-- Enclave run consuming the fixture MSG2. -/
def encRunC2 : RunResult EnclaveRaError (EnclaveRaContext × StreamSt) (MacTag × MacTag) :=
  ctxEC2.process_msg_2 vlaTrue (some msg2C4) stC2

/-- Enclave context after the fixture MSG2 run. -/
def ctxE1C2 : EnclaveRaContext :=
  (encRunC2.stateOf ({ ctxEC2 with key_exchange := none }, stC2)).1

/-- Fixture signature of the SP key over `g_b ‖ g_a` for scalars 4, 3. -/
def sigC3 : SigMsg := ecdsaSign 9 (pubBytes 4 ++ pubBytes 3)

/-- Fixture MSG2 before MAC stamping. -/
def msg2BaseC3 : RaMsg2 :=
  { g_b := pubBytes 4, spid := List.replicate 16 1, quote_type := 1, kdf_id := 1,
    sign_gb_ga := sigC3, mac := 0, sig_rl := none }

/-- KDK the enclave would derive from the fixture MSG2. -/
def kdkC3 : MacTag := cmacTag 0 (pointBytesN (pointMul 3 (pointOfBytes (pubBytes 4))))

/-- SMK derived from that KDK. -/
def smkC3 : MacTag := (derive_secret_keys kdkC3).1

/-- MSG2 with a valid signature but an off-by-one MAC. -/
def msg2C3 : RaMsg2 :=
  { msg2BaseC3 with mac := cmacTag smkC3 (msg2AuthBytes msg2BaseC3) + 1 }

/-- Enclave context for the C3 run. -/
def ctxEC3 : EnclaveRaContext := { key_exchange := some ⟨3⟩, sp_vkey := 9 }

/-- Positive MSG4 used in the C3 run. -/
def msg4OkC3 : RaMsg4 :=
  { is_enclave_trusted := true, is_pse_manifest_trusted := none, pib := none }

/-- AESM quote info stub. -/
def qiFx : QuoteInfoM := { gid := [0, 0, 0, 0], target_info := List.replicate 512 0 }

/-- Client context fixture. -/
def cliCtxFx : ClientRaContext := { quote_info := qiFx }

/-- AESM `init_quote` stub. -/
def aesmInitFx : Except ClientRaError QuoteInfoM := .ok qiFx

/-- AESM `get_quote` stub returning a 432-byte quote and QE report. -/
def aesmGetQuoteFx : List Nat → List Nat → List Nat →
    Except ClientRaError (List Nat × List Nat) :=
  fun _ _ _ => .ok (List.replicate 432 0, List.replicate 432 0)

/-- Enclave-side stream for the client C4 witness: the 64 public-key
bytes, then the 432-byte report, then the 16-byte MSG3 MAC. -/
def estC4 : StreamSt := { inBytes := List.replicate 512 0, outBytes := [] }

/-- MSG4 with a negative PSE manifest verdict. -/
def msg4PseFalse : RaMsg4 :=
  { is_enclave_trusted := true, is_pse_manifest_trusted := some false, pib := none }

/-- The report the OK IAS stub returns. -/
def arOkFx : AttestationResult :=
  { isv_enclave_quote_status := "OK", pse_manifest_status := none,
    platform_info_blob := none, epid_pseudonym := none }

/-- The report the permissive-status IAS stub returns. -/
def arC5Fx : AttestationResult :=
  { isv_enclave_quote_status := "GROUP_OUT_OF_DATE", pse_manifest_status := none,
    platform_info_blob := none, epid_pseudonym := none }

/-- The report the bad-PSE IAS stub returns. -/
def arPseBadFx : AttestationResult :=
  { isv_enclave_quote_status := "OK", pse_manifest_status := some "BAD",
    platform_info_blob := none, epid_pseudonym := none }

/-- The MSG3-processing run of the C5 fixture. -/
def spRunC5 : RunResult SpRaError SpRaContext (RaMsg4 × Option String) :=
  ctxC5.process_msg_3 false iasC5 msg3C5

/-- MSG4 produced by the C5 fixture run. -/
def msg4C5 : RaMsg4 := (spRunC5.valueOf dfltMsg4Out).1

/-- EPID pseudonym produced by the C5 fixture run. -/
def psC5 : Option String := (spRunC5.valueOf dfltMsg4Out).2

/-- The MSG3-processing run of the C4 fixture session. -/
def spRun3C4 : RunResult SpRaError SpRaContext (RaMsg4 × Option String) :=
  ctx1C4.process_msg_3 false iasPseBad msg3C4

/-- MSG4 produced by the C4 fixture run. -/
def msg4spC4 : RaMsg4 := (spRun3C4.valueOf dfltMsg4Out).1

/-- EPID pseudonym produced by the C4 fixture run. -/
def pspC4 : Option String := (spRun3C4.valueOf dfltMsg4Out).2

/-- Enclave stream state after the client read the 64 public-key bytes
out of `estC4`. -/
def gaPairC4 : List Nat × StreamSt :=
  (List.replicate 64 0, { inBytes := List.replicate 448 0, outBytes := [] })

/-- The client MSG2-processing run of the C4 witness. -/
def cliRunC4 : RunResult ClientRaError StreamSt RaMsg3 :=
  ClientRaContext.process_msg_2 aesmInitFx aesmGetQuoteFx msg2C3 gaPairC4.2

/-- Client stream state after the C4 witness MSG2 run. -/
def s2C4 : StreamSt := cliRunC4.stateOf { inBytes := [], outBytes := [] }

/-- MSG3 assembled by the C4 witness client run. -/
def msg3cC4 : RaMsg3 :=
  cliRunC4.valueOf { mac := 0, ps_sec_prop := none, quote := [] }

/-- Context produced by the C8 witness `init` run. -/
def initCtxC8 : SpRaContext :=
  (SpRaContext.init ctxC4.config 9 ⟨4⟩ sgZero).getD ctxC4

/-- Stream state after the fixture enclave MSG2 run. -/
def stEC2 : StreamSt :=
  (encRunC2.stateOf ({ ctxEC2 with key_exchange := none }, stC2)).2

/-- Key pair returned by the fixture enclave MSG2 run. -/
def encValC2 : MacTag × MacTag := encRunC2.valueOf (0, 0)

/-! ## Helper lemmas -/

theorem natToBytes_length (k v : Nat) : (natToBytes k v).length = k := by
  induction k generalizing v with
  | zero => rfl
  | succ k ih => simp [natToBytes, ih]

theorem bytesToNat_natToBytes (k v : Nat) (h : v < 256 ^ k) :
    bytesToNat (natToBytes k v) = v := by
  induction k generalizing v with
  | zero => simp at h; simp [natToBytes, bytesToNat, h]
  | succ k ih =>
    have hdiv : v / 256 < 256 ^ k := by
      rw [Nat.div_lt_iff_lt_mul (by norm_num)]
      calc v < 256 ^ (k + 1) := h
        _ = 256 ^ k * 256 := by ring
    simp [natToBytes, bytesToNat, ih _ hdiv]
    omega

theorem sha256_length (msg : List Nat) : (sha256 msg).length = 32 :=
  natToBytes_length 32 _

theorem dhMod_pos : 0 < dhMod := by decide

theorem pointMul_lt (k p : Nat) : pointMul k p < dhMod :=
  Nat.mod_lt _ dhMod_pos

theorem pointOfBytes_pointBytesN (p : Nat) (h : p < dhMod) :
    pointOfBytes (pointBytesN p) = p := by
  unfold pointOfBytes pointBytesN
  rw [bytesToNat_natToBytes 32 p (lt_trans h (by decide))]
  exact Nat.mod_eq_of_lt h

theorem pointOfBytes_pubBytes (x : Nat) : pointOfBytes (pubBytes x) = pubOf x :=
  pointOfBytes_pointBytesN _ (pointMul_lt _ _)

theorem pointMul_pubOf_comm (x y : Nat) : pointMul x (pubOf y) = pointMul y (pubOf x) := by
  unfold pointMul pubOf pointMul
  conv_lhs => rw [Nat.mul_mod, Nat.mod_mod_of_dvd _ dvd_rfl, ← Nat.mul_mod]
  conv_rhs => rw [Nat.mul_mod, Nat.mod_mod_of_dvd _ dvd_rfl, ← Nat.mul_mod]
  rw [← Nat.mul_assoc, ← Nat.mul_assoc, Nat.mul_comm x y]

theorem verifyMacMsg2_mkRaMsg2 (smk : MacTag) (g_b spid : List Nat) (qt : Nat)
    (sig : SigMsg) (srl : Option (List Nat)) :
    verifyMacMsg2 smk (mkRaMsg2 smk g_b spid qt sig srl) = true := by
  simp [verifyMacMsg2, mkRaMsg2, msg2AuthBytes]

theorem verifyMacMsg3_mkRaMsg3 (smk : MacTag) (ps : Option (List Nat)) (q : List Nat) :
    verifyMacMsg3 smk (mkRaMsg3 smk ps q) = true := by
  simp [verifyMacMsg3, mkRaMsg3, msg3AuthBytes]

theorem readExact_of_le (s : StreamSt) (n : Nat) (h : n ≤ s.inBytes.length) :
    readExact s n =
      some (s.inBytes.take n, { s with inBytes := s.inBytes.drop n }) := by
  unfold readExact
  rw [if_pos h]

/-! ## Correctness of the halving binary search on sorted lists -/

theorem rustBinarySearch_iff_aux {α : Type} [LinearOrder α] :
    ∀ (fuel : Nat) (l : List α) (x : α), l.length ≤ fuel →
      l.Sorted (· ≤ ·) → (rustBinarySearchAux fuel l x = true ↔ x ∈ l) := by
  intro fuel
  induction fuel with
  | zero =>
    intro l x hlen _
    have hnil : l = [] := List.eq_nil_of_length_eq_zero (Nat.le_zero.mp hlen)
    subst hnil
    simp [rustBinarySearchAux]
  | succ n ih =>
    intro l x hlen hsort
    by_cases hl : l.length = 0
    · have hnil : l = [] := List.eq_nil_of_length_eq_zero hl
      subst hnil
      simp [rustBinarySearchAux]
    · have hpos : 0 < l.length := Nat.pos_of_ne_zero hl
      have hm : l.length / 2 < l.length := Nat.div_lt_self hpos (by omega)
      have hgetD : l.getD (l.length / 2) x = l[l.length / 2] :=
        List.getD_eq_getElem l x hm
      have hpw := List.pairwise_iff_getElem.mp hsort
      rw [rustBinarySearchAux]
      rw [if_neg hl, hgetD]
      by_cases hlt : l[l.length / 2] < x
      · rw [if_pos hlt]
        have hlen' : (l.drop (l.length / 2 + 1)).length ≤ n := by
          simp only [List.length_drop]
          omega
        have hsort' : (l.drop (l.length / 2 + 1)).Sorted (· ≤ ·) :=
          hsort.sublist (List.drop_sublist _ _)
        rw [ih _ x hlen' hsort']
        constructor
        · exact List.mem_of_mem_drop
        · intro hx
          obtain ⟨i, hi, hxi⟩ := List.mem_iff_getElem.mp hx
          have hgt : l.length / 2 < i := by
            by_contra hle
            push_neg at hle
            have hle2 : l[i] ≤ l[l.length / 2] := by
              rcases Nat.lt_or_ge i (l.length / 2) with hi2 | hi2
              · exact hpw i (l.length / 2) hi hm hi2
              · have : i = l.length / 2 := by omega
                subst this
                exact le_refl _
            rw [hxi] at hle2
            exact absurd (lt_of_le_of_lt hle2 hlt) (lt_irrefl x)
          have hidx : l.length / 2 + 1 + (i - (l.length / 2 + 1)) = i := by omega
          have h2 : i - (l.length / 2 + 1) < (l.drop (l.length / 2 + 1)).length := by
            simp only [List.length_drop]
            omega
          refine List.mem_iff_getElem.mpr ⟨i - (l.length / 2 + 1), h2, ?_⟩
          rw [List.getElem_drop]
          simp_rw [hidx]
          exact hxi
      · rw [if_neg hlt]
        by_cases hgt : x < l[l.length / 2]
        · rw [if_pos hgt]
          have hlen' : (l.take (l.length / 2)).length ≤ n := by
            simp only [List.length_take]
            omega
          have hsort' : (l.take (l.length / 2)).Sorted (· ≤ ·) :=
            hsort.sublist (List.take_sublist _ _)
          rw [ih _ x hlen' hsort']
          constructor
          · exact List.mem_of_mem_take
          · intro hx
            obtain ⟨i, hi, hxi⟩ := List.mem_iff_getElem.mp hx
            have hilt : i < l.length / 2 := by
              by_contra hle
              push_neg at hle
              have hle2 : l[l.length / 2] ≤ l[i] := by
                rcases Nat.lt_or_ge (l.length / 2) i with hi2 | hi2
                · exact hpw (l.length / 2) i hm hi hi2
                · have : l.length / 2 = i := by omega
                  subst this
                  exact le_refl _
              rw [hxi] at hle2
              exact absurd (lt_of_lt_of_le hgt hle2) (lt_irrefl x)
            have h2 : i < (l.take (l.length / 2)).length := by
              simp only [List.length_take]
              omega
            refine List.mem_iff_getElem.mpr ⟨i, h2, ?_⟩
            rw [List.getElem_take]
            exact hxi
        · rw [if_neg hgt]
          have hx : x = l[l.length / 2] := le_antisymm (not_lt.mp hlt) (not_lt.mp hgt)
          simp only [true_iff]
          rw [hx]
          exact List.getElem_mem hm

theorem rustBinarySearch_eq_mem {α : Type} [LinearOrder α] (l : List α) (x : α)
    (h : l.Sorted (· ≤ ·)) : rustBinarySearch l x = true ↔ x ∈ l := by
  unfold rustBinarySearch
  exact rustBinarySearch_iff_aux l.length l x le_rfl h

theorem mkRaMsg2_g_b (smk : MacTag) (g_b spid : List Nat) (qt : Nat)
    (sig : SigMsg) (srl : Option (List Nat)) :
    (mkRaMsg2 smk g_b spid qt sig srl).g_b = g_b := rfl

theorem mkRaMsg2_sign_gb_ga (smk : MacTag) (g_b spid : List Nat) (qt : Nat)
    (sig : SigMsg) (srl : Option (List Nat)) :
    (mkRaMsg2 smk g_b spid qt sig srl).sign_gb_ga = sig := rfl

theorem sign_and_derive_kdk (ke : OneWayAuthenticatedDHKE) (g_a : List Nat) (sk : Nat) :
    (sign_and_derive ke g_a sk).1 =
      cmacTag 0 (pointBytesN (pointMul ke.priv (pointOfBytes g_a))) := rfl

theorem sign_and_derive_sig (ke : OneWayAuthenticatedDHKE) (g_a : List Nat) (sk : Nat) :
    (sign_and_derive ke g_a sk).2 = ecdsaSign sk (ke.get_public_key ++ g_a) := rfl

/-! ## Claim theorems -/

set_option maxRecDepth 5000 in
/-- C1 (counterexample): the claim as stated is false on the code.  On a
concrete MSG3 whose quote carries the DEBUG bit inside its attribute-flag
bytes (offset 96), while the configured SIGSTRUCT has clear flags, a
release-build (`debug_assertions` off) `process_msg_3` succeeds instead
of failing with EnclaveInDebugMode: the source reads
`self.sigstruct.attributes.flags`, never the flags inside `msg3.quote`. -/
theorem c1_debug_flag_counterexample :
    Nat.land DEBUG_FLAG (bytesToNat (subBytes msg3C1.quote 96 8)) ≠ 0 ∧
    Nat.land DEBUG_FLAG ctxC1.sigstruct.attributes_flags = 0 ∧
    (SpRaContext.process_msg_3 false iasOkFx ctxC1 msg3C1).isOk = true ∧
    (SpRaContext.process_msg_3 false iasOkFx ctxC1 msg3C1).valueOf dfltMsg4Out =
      ({ is_enclave_trusted := true, is_pse_manifest_trusted := none,
         pib := none }, none) := by
  refine ⟨by decide, by decide, by decide, by decide⟩

/-- C1 (amended): in a release build (`debug_assertions` off),
`process_msg_3` returns EnclaveInDebugMode whenever the configured
SIGSTRUCT attribute flags have the DEBUG bit set (once the earlier MAC,
digest, IAS and identity checks pass); the quote's own attribute bytes
are never examined.  In a debug build the check is skipped and the error
is unreachable. -/
theorem c1_debug_check_uses_sigstruct_flags
    (ctx : SpRaContext) (msg3 : RaMsg3) (d : Bool)
    (ias : List Nat → Except SpRaError AttestationResult) (ar : AttestationResult)
    (smk : MacTag)
    (hsmk : ctx.smk = some smk)
    (hmac : verifyMacMsg3 smk msg3 = true)
    (hvd : ctx.verification_digest = some (subBytes msg3.quote 368 32))
    (har : ias msg3.quote = Except.ok ar)
    (hid : ¬(subBytes msg3.quote 112 32 ≠ ctx.sigstruct.enclavehash ∨
        subBytes msg3.quote 176 32 ≠ sha256 ctx.sigstruct.modulus ∨
        u16le msg3.quote 304 ≠ ctx.sigstruct.isvprodid ∨
        u16le msg3.quote 306 ≠ ctx.sigstruct.isvsvn)) :
    (d = false → Nat.land DEBUG_FLAG ctx.sigstruct.attributes_flags ≠ 0 →
       ctx.process_msg_3 d ias msg3 = .err ctx .EnclaveInDebugMode) ∧
    (d = true → ∀ c, ctx.process_msg_3 d ias msg3 ≠ .err c .EnclaveInDebugMode) := by
  constructor
  · intro hd hflag
    unfold SpRaContext.process_msg_3
    rw [hsmk]
    dsimp only
    rw [if_neg (by simp [hmac])]
    rw [hvd]
    dsimp only
    rw [if_neg (by simp)]
    rw [har]
    dsimp only
    rw [if_neg hid]
    rw [if_pos ⟨hd, hflag⟩]
  · intro hd c
    subst hd
    unfold SpRaContext.process_msg_3
    rw [hsmk]
    dsimp only
    rw [if_neg (by simp [hmac])]
    rw [hvd]
    dsimp only
    rw [if_neg (by simp)]
    rw [har]
    dsimp only
    rw [if_neg hid]
    rw [if_neg (by simp)]
    (repeat' split) <;> simp

set_option maxRecDepth 5000 in
/-- Witness for the amended C1 theorem on the fixture whose SIGSTRUCT
carries the DEBUG bit: release build fails with EnclaveInDebugMode, debug
build does not. -/
theorem c1_debug_check_witness :
    SpRaContext.process_msg_3 false iasOkFx ctxC1w msg3C1w =
      .err ctxC1w SpRaError.EnclaveInDebugMode ∧
    SpRaContext.process_msg_3 true iasOkFx ctxC1w msg3C1w ≠
      .err ctxC1w SpRaError.EnclaveInDebugMode := by
  constructor
  · exact (c1_debug_check_uses_sigstruct_flags ctxC1w msg3C1w false iasOkFx arOkFx 99
      rfl (by decide) rfl rfl (by decide)).1 rfl (by decide)
  · exact (c1_debug_check_uses_sigstruct_flags ctxC1w msg3C1w true iasOkFx arOkFx 99
      rfl (by decide) rfl rfl (by decide)).2 rfl ctxC1w

set_option maxRecDepth 5000 in
/-- C2: for every matching key material (SP signing key known to the
enclave, enclave ephemeral scalar `a`, SP ephemeral scalar `b`), the KDK
the SP derives inside `process_msg_1` via `sign_and_derive` is exactly
the KDK the enclave derives inside `process_msg_2` via
`verify_and_derive` on the produced MSG2; hence the derived
(SMK, SK, MK, VK) tuples agree bitwise, and the enclave run succeeds
returning exactly the (SK, MK) pair the SP stored in its session. -/
theorem c2_kdk_agreement
    (a b spKey : Nat) (ctxS : SpRaContext) (ctxE : EnclaveRaContext)
    (hkeS : ctxS.key_exchange = some ⟨b⟩)
    (hkeE : ctxE.key_exchange = some ⟨a⟩)
    (hsk : ctxS.sp_private_key = spKey)
    (hvk : ctxE.sp_vkey = spKey)
    (sigRlv : Option (List Nat)) (msg1 : RaMsg1)
    (hga : msg1.g_a = pubBytes a)
    (vla : List Nat → Bool) (hvla : ∀ bs, vla bs = true)
    (st : StreamSt) (hst : 1376 ≤ st.inBytes.length)
    (ctxS1 : SpRaContext) (msg2 : RaMsg2)
    (hrun : ctxS.process_msg_1 (Except.ok sigRlv) msg1 = .ok ctxS1 msg2) :
    verify_and_derive ⟨a⟩ msg2.g_b msg2.sign_gb_ga ctxE.sp_vkey =
      some (sign_and_derive ⟨b⟩ msg1.g_a ctxS.sp_private_key).1 ∧
    (∀ k, verify_and_derive ⟨a⟩ msg2.g_b msg2.sign_gb_ga ctxE.sp_vkey = some k →
      derive_secret_keys k =
        derive_secret_keys (sign_and_derive ⟨b⟩ msg1.g_a ctxS.sp_private_key).1) ∧
    (ctxE.process_msg_2 vla (some msg2) st).isOk = true ∧
    (ctxE.process_msg_2 vla (some msg2) st).valueOf (0, 0) = ctxS1.sk_mk.getD (0, 0) := by
  unfold SpRaContext.process_msg_1 at hrun
  rw [hkeS] at hrun
  dsimp only at hrun
  simp only [RunResult.ok.injEq] at hrun
  obtain ⟨hc, hm⟩ := hrun
  subst hc
  subst hm
  have hverify : verify_and_derive ⟨a⟩
      (mkRaMsg2 (derive_secret_keys (sign_and_derive ⟨b⟩ msg1.g_a ctxS.sp_private_key).1).1
        (OneWayAuthenticatedDHKE.get_public_key ⟨b⟩) ctxS.config.spid
        (if ctxS.config.linkable then 1 else 0)
        (sign_and_derive ⟨b⟩ msg1.g_a ctxS.sp_private_key).2 sigRlv).g_b
      (mkRaMsg2 (derive_secret_keys (sign_and_derive ⟨b⟩ msg1.g_a ctxS.sp_private_key).1).1
        (OneWayAuthenticatedDHKE.get_public_key ⟨b⟩) ctxS.config.spid
        (if ctxS.config.linkable then 1 else 0)
        (sign_and_derive ⟨b⟩ msg1.g_a ctxS.sp_private_key).2 sigRlv).sign_gb_ga
      ctxE.sp_vkey =
      some (sign_and_derive ⟨b⟩ msg1.g_a ctxS.sp_private_key).1 := by
    rw [mkRaMsg2_g_b, mkRaMsg2_sign_gb_ga, sign_and_derive_sig]
    unfold verify_and_derive
    rw [if_pos ?hcond]
    case hcond =>
      constructor
      · simp [ecdsaSign, hvk, hsk]
      · simp [ecdsaSign, hga, OneWayAuthenticatedDHKE.get_public_key]
    rw [sign_and_derive_kdk]
    have hcomm : pointMul (⟨a⟩ : OneWayAuthenticatedDHKE).priv
        (pointOfBytes (OneWayAuthenticatedDHKE.get_public_key ⟨b⟩)) =
        pointMul (⟨b⟩ : OneWayAuthenticatedDHKE).priv (pointOfBytes (pubBytes a)) := by
      show pointMul a (pointOfBytes (pubBytes b)) =
        pointMul b (pointOfBytes (pubBytes a))
      rw [pointOfBytes_pubBytes, pointOfBytes_pubBytes]
      exact pointMul_pubOf_comm a b
    rw [hga, hcomm]
  refine ⟨hverify, fun k hk =>
    congrArg derive_secret_keys (Option.some.inj (hverify.symm.trans hk)).symm, ?_⟩
  unfold EnclaveRaContext.process_msg_2
  rw [hkeE]
  dsimp only
  rw [hverify]
  dsimp only
  rw [if_neg (by simp [verifyMacMsg2_mkRaMsg2])]
  unfold EnclaveRaContext.get_quote
  rw [if_neg (by simp [sha256_length])]
  rw [readExact_of_le _ _ (by
    show TARGETINFO_SIZE ≤ st.inBytes.length
    unfold TARGETINFO_SIZE
    omega)]
  dsimp only
  rw [readExact_of_le _ _ (by
    show QUOTE_SIZE ≤ (st.inBytes.drop TARGETINFO_SIZE).length
    simp only [List.length_drop]
    unfold QUOTE_SIZE TARGETINFO_SIZE
    omega)]
  dsimp only
  rw [readExact_of_le _ _ (by
    show REPORT_SIZE ≤ ((st.inBytes.drop TARGETINFO_SIZE).drop QUOTE_SIZE).length
    simp only [List.length_drop]
    unfold REPORT_SIZE QUOTE_SIZE TARGETINFO_SIZE
    omega)]
  dsimp only
  rw [hvla, if_pos rfl]
  exact ⟨rfl, rfl⟩

set_option maxRecDepth 5000 in
/-- Witness for C2 on the concrete fixture session (scalars 3 and 4,
signing key 9): the verifier-side KDK equals the signer-side KDK and the
enclave run returns the stored (SK, MK). -/
theorem c2_kdk_agreement_witness :
    verify_and_derive ⟨3⟩ msg2C4.g_b msg2C4.sign_gb_ga ctxEC2.sp_vkey =
      some (sign_and_derive ⟨4⟩ msg1C4.g_a ctxC4.sp_private_key).1 ∧
    (∀ k, verify_and_derive ⟨3⟩ msg2C4.g_b msg2C4.sign_gb_ga ctxEC2.sp_vkey = some k →
      derive_secret_keys k =
        derive_secret_keys (sign_and_derive ⟨4⟩ msg1C4.g_a ctxC4.sp_private_key).1) ∧
    (ctxEC2.process_msg_2 vlaTrue (some msg2C4) stC2).isOk = true ∧
    (ctxEC2.process_msg_2 vlaTrue (some msg2C4) stC2).valueOf (0, 0) =
      ctx1C4.sk_mk.getD (0, 0) :=
  c2_kdk_agreement 3 4 9 ctxC4 ctxEC2 rfl rfl rfl rfl none msg1C4 rfl
    vlaTrue (fun _ => rfl) stC2 (by simp [stC2]) ctx1C4 msg2C4 (by rfl)

set_option maxRecDepth 5000 in
/-- C3 (code bug): the spec requires every failure to surface as an `Err`
of `do_attestation`, but the enclave orchestrator unwraps the result of
`process_msg_2`.  On a concrete MSG2 whose signature is valid but whose
MAC is wrong, `process_msg_2` returns Err(IntegrityError) and
`do_attestation` panics instead of returning that error. -/
theorem c3_enclave_do_attestation_panics :
    (EnclaveRaContext.process_msg_2 vlaTrue ctxEC3 (some msg2C3) stC2).errKind =
      some EnclaveRaError.IntegrityError ∧
    (EnclaveRaContext.do_attestation vlaTrue ctxEC3 (some msg2C3) stC2
      (some msg4OkC3)).isPanic = true := by
  refine ⟨by decide, by decide⟩

set_option maxRecDepth 5000 in
/-- C4 (counterexample): the claim as stated is false on the code.  On a
concrete full SP session whose MSG4 carries
`is_pse_manifest_trusted = some false` (and a trusted enclave verdict),
`SpRaContext::do_attestation` fails with EnclaveNotTrusted, not with the
dedicated PseNotTrusted error. -/
theorem c4_sp_pse_error_counterexample :
    msg4PseFalse.is_pse_manifest_trusted = some false ∧
    ((ctx1C4.process_msg_3 false iasPseBad msg3C4).valueOf
        dfltMsg4Out).1.is_pse_manifest_trusted = some false ∧
    (SpRaContext.do_attestation false (Except.ok none) iasPseBad ctxC4
        (Except.ok ⟨0⟩) (Except.ok msg1C4) (Except.ok msg3C4)).errKind =
      some SpRaError.EnclaveNotTrusted := by
  refine ⟨by decide, by decide, by decide⟩

/-- C4 (amended): for every MSG4 with `is_pse_manifest_trusted =
some false` and a positive enclave verdict, the client `do_attestation`
fails with the dedicated PseNotTrusted error, while the SP
`do_attestation` maps the same verdict to EnclaveNotTrusted. -/
theorem c4_pse_verdict_errors
    (aesmI : Except ClientRaError QuoteInfoM)
    (aesmG : List Nat → List Nat → List Nat → Except ClientRaError (List Nat × List Nat))
    (cctx : ClientRaContext) (msg2 : RaMsg2) (msg4 : RaMsg4)
    (est s2 : StreamSt) (gaPair : List Nat × StreamSt) (msg3c : RaMsg3)
    (d : Bool) (sigRl : Except SpRaError (Option (List Nat)))
    (ias : List Nat → Except SpRaError AttestationResult)
    (ctxS c1 c2 : SpRaContext) (msg0 : RaMsg0) (msg1 : RaMsg1) (m2 : RaMsg2)
    (msg3 : RaMsg3) (msg4s : RaMsg4) (ps : Option String) :
    ((readExact est 64 = some gaPair) →
     (cctx.quote_info.gid.length = 4) →
     (ClientRaContext.process_msg_2 aesmI aesmG msg2 gaPair.2 = .ok s2 msg3c) →
     (msg4.is_enclave_trusted = true) →
     (msg4.is_pse_manifest_trusted = some false) →
     ClientRaContext.do_attestation aesmI aesmG cctx (.ok msg2) (.ok msg4) est =
       .err (writeAll s2 (encodeMsg4 msg4)) .PseNotTrusted) ∧
    ((ctxS.process_msg_1 sigRl msg1 = .ok c1 m2) →
     (c1.process_msg_3 d ias msg3 = .ok c2 (msg4s, ps)) →
     (msg4s.is_enclave_trusted = true) →
     (msg4s.is_pse_manifest_trusted = some false) →
     SpRaContext.do_attestation d sigRl ias ctxS (.ok msg0) (.ok msg1) (.ok msg3) =
       .err c2 .EnclaveNotTrusted) := by
  constructor
  · intro hga hgid hpm2 h4a h4b
    unfold ClientRaContext.do_attestation
    rw [hga]
    dsimp only
    rw [if_neg (by simp [hgid])]
    rw [hpm2]
    dsimp only
    rw [if_neg (by simp [h4a])]
    rw [h4b]
  · intro hm1 hm3 h4c h4d
    unfold SpRaContext.do_attestation
    dsimp only
    rw [hm1]
    dsimp only
    rw [hm3]
    dsimp only
    rw [if_neg (by simp [h4c])]
    rw [h4d]

set_option maxRecDepth 5000 in
/-- Witness for the amended C4 theorem on concrete sessions: the client
run ends in PseNotTrusted, the SP run in EnclaveNotTrusted. -/
theorem c4_pse_verdict_errors_witness :
    ClientRaContext.do_attestation aesmInitFx aesmGetQuoteFx cliCtxFx
        (Except.ok msg2C3) (Except.ok msg4PseFalse) estC4 =
      .err (writeAll s2C4 (encodeMsg4 msg4PseFalse)) ClientRaError.PseNotTrusted ∧
    SpRaContext.do_attestation false (Except.ok none) iasPseBad ctxC4
        (Except.ok ⟨0⟩) (Except.ok msg1C4) (Except.ok msg3C4) =
      .err ctx1C4 SpRaError.EnclaveNotTrusted := by
  constructor
  · exact (c4_pse_verdict_errors aesmInitFx aesmGetQuoteFx cliCtxFx msg2C3 msg4PseFalse
      estC4 s2C4 gaPairC4 msg3cC4 false (Except.ok none) iasPseBad ctxC4 ctx1C4 ctx1C4
      ⟨0⟩ msg1C4 msg2C4 msg3C4 msg4spC4 pspC4).1
      (by decide) (by decide) (by rfl) (by decide) (by decide)
  · exact (c4_pse_verdict_errors aesmInitFx aesmGetQuoteFx cliCtxFx msg2C3 msg4PseFalse
      estC4 s2C4 gaPairC4 msg3cC4 false (Except.ok none) iasPseBad ctxC4 ctx1C4 ctx1C4
      ⟨0⟩ msg1C4 msg2C4 msg3C4 msg4spC4 pspC4).2
      (by rfl) (by rfl) (by decide) (by decide)

/-- C5: in the MSG4 that a successful `process_msg_3` run assembles,
the enclave verdict is true exactly when the IAS quote status is OK or a
member of the configured quote trust options, and the PSE verdict maps
the optional manifest status through the same rule against the PSE trust
options; the binary-search membership tests are correct because `init`
sorts both option lists. -/
theorem c5_msg4_trust_decision
    (ctx : SpRaContext) (msg3 : RaMsg3) (d : Bool)
    (ias : List Nat → Except SpRaError AttestationResult) (ar : AttestationResult)
    (ctx1 : SpRaContext) (msg4 : RaMsg4) (ps : Option String) (smk : MacTag)
    (hsmk : ctx.smk = some smk)
    (hmac : verifyMacMsg3 smk msg3 = true)
    (hvd : ctx.verification_digest = some (subBytes msg3.quote 368 32))
    (har : ias msg3.quote = Except.ok ar)
    (hsortQ : ctx.config.quote_trust_options.Sorted (· ≤ ·))
    (hsortP : ∀ opts, ctx.config.pse_trust_options = some opts → opts.Sorted (· ≤ ·))
    (hrun : ctx.process_msg_3 d ias msg3 = .ok ctx1 (msg4, ps)) :
    (msg4.is_enclave_trusted = true ↔
      (ar.isv_enclave_quote_status = "OK" ∨
       ar.isv_enclave_quote_status ∈ ctx.config.quote_trust_options)) ∧
    (ar.pse_manifest_status = none → msg4.is_pse_manifest_trusted = none) ∧
    (∀ s, ar.pse_manifest_status = some s →
      ∃ b, msg4.is_pse_manifest_trusted = some b ∧
        (b = true ↔ (s = "OK" ∨
          ∃ opts, ctx.config.pse_trust_options = some opts ∧ s ∈ opts))) ∧
    (∀ cfg key kp sg c, SpRaContext.init cfg key kp sg = some c →
      c.config.quote_trust_options.Sorted (· ≤ ·) ∧
      ∀ opts, c.config.pse_trust_options = some opts → opts.Sorted (· ≤ ·)) := by
  have hinit : ∀ (cfg : SpConfig) (key : Nat) (kp : OneWayAuthenticatedDHKE)
      (sg : Sigstruct) (c : SpRaContext), SpRaContext.init cfg key kp sg = some c →
      c.config.quote_trust_options.Sorted (· ≤ ·) ∧
      ∀ opts, c.config.pse_trust_options = some opts → opts.Sorted (· ≤ ·) := by
    intro cfg key kp sg c h
    unfold SpRaContext.init at h
    split at h
    · injection h with h
      subst h
      constructor
      · exact List.sorted_insertionSort _ _
      · intro opts hopts
        simp only [Option.map_eq_some'] at hopts
        obtain ⟨a, _, ha⟩ := hopts
        subst ha
        exact List.sorted_insertionSort _ _
    · exact absurd h (by simp)
  unfold SpRaContext.process_msg_3 at hrun
  rw [hsmk] at hrun
  dsimp only at hrun
  rw [if_neg (by simp [hmac])] at hrun
  rw [hvd] at hrun
  dsimp only at hrun
  rw [if_neg (by simp)] at hrun
  rw [har] at hrun
  dsimp only at hrun
  split at hrun
  · exact absurd hrun (by simp)
  · split at hrun
    · exact absurd hrun (by simp)
    · split at hrun
      · rename_i hps
        simp only [RunResult.ok.injEq, Prod.mk.injEq] at hrun
        obtain ⟨-, hm4, -⟩ := hrun
        subst hm4
        refine ⟨?_, fun _ => rfl, ?_, hinit⟩
        · simp only [decide_eq_true_eq]
          exact or_congr Iff.rfl (rustBinarySearch_eq_mem _ _ hsortQ)
        · intro s hs
          rw [hps] at hs
          exact absurd hs (by simp)
      · split at hrun
        · rename_i status hps hok
          simp only [RunResult.ok.injEq, Prod.mk.injEq] at hrun
          obtain ⟨-, hm4, -⟩ := hrun
          subst hm4
          refine ⟨?_, ?_, ?_, hinit⟩
          · simp only [decide_eq_true_eq]
            exact or_congr Iff.rfl (rustBinarySearch_eq_mem _ _ hsortQ)
          · intro hn
            rw [hps] at hn
            exact absurd hn (by simp)
          · intro s hs
            rw [hps] at hs
            injection hs with hs
            subst hs
            exact ⟨true, rfl, iff_of_true rfl (Or.inl hok)⟩
        · split at hrun
          · exact absurd hrun (by simp)
          · rename_i status hps hnok xopt opts hopt
            simp only [RunResult.ok.injEq, Prod.mk.injEq] at hrun
            obtain ⟨-, hm4, -⟩ := hrun
            subst hm4
            refine ⟨?_, ?_, ?_, hinit⟩
            · simp only [decide_eq_true_eq]
              exact or_congr Iff.rfl (rustBinarySearch_eq_mem _ _ hsortQ)
            · intro hn
              rw [hps] at hn
              exact absurd hn (by simp)
            · intro s hs
              rw [hps] at hs
              injection hs with hs
              subst hs
              refine ⟨rustBinarySearch opts status, rfl, ?_⟩
              constructor
              · intro hb
                exact Or.inr ⟨opts, hopt,
                  (rustBinarySearch_eq_mem _ _ (hsortP opts hopt)).mp hb⟩
              · intro hb
                rcases hb with hb | ⟨opts2, hopt2, hmem⟩
                · exact absurd hb hnok
                · rw [hopt] at hopt2
                  injection hopt2 with hopt2
                  subst hopt2
                  exact (rustBinarySearch_eq_mem _ _ (hsortP opts hopt)).mpr hmem

set_option maxRecDepth 5000 in
/-- Witness for C5 on a concrete run whose IAS status is
GROUP_OUT_OF_DATE, listed in the quote trust options. -/
theorem c5_msg4_trust_decision_witness :
    (msg4C5.is_enclave_trusted = true ↔
      (arC5Fx.isv_enclave_quote_status = "OK" ∨
       arC5Fx.isv_enclave_quote_status ∈ ctxC5.config.quote_trust_options)) ∧
    (arC5Fx.pse_manifest_status = none → msg4C5.is_pse_manifest_trusted = none) ∧
    (∀ s, arC5Fx.pse_manifest_status = some s →
      ∃ b, msg4C5.is_pse_manifest_trusted = some b ∧
        (b = true ↔ (s = "OK" ∨
          ∃ opts, ctxC5.config.pse_trust_options = some opts ∧ s ∈ opts))) ∧
    (∀ cfg key kp sg c, SpRaContext.init cfg key kp sg = some c →
      c.config.quote_trust_options.Sorted (· ≤ ·) ∧
      ∀ opts, c.config.pse_trust_options = some opts → opts.Sorted (· ≤ ·)) :=
  c5_msg4_trust_decision ctxC5 msg3C5 false iasC5 arC5Fx ctxC5 msg4C5 psC5 99
    rfl (by decide) rfl rfl (List.sorted_singleton _)
    (by intro opts h; simp [ctxC5, mkSpFixtureCtx] at h) (by rfl)

/-- C6: `process_msg_3` fails fast on integrity: a MAC that does not
verify under the stored SMK yields IntegrityError, and a verifying MAC
with a quote whose bytes [368..400) differ from the stored verification
digest also yields IntegrityError; in both cases the result is the same
for every IAS collaborator (the quote is never submitted) and the
returned error carries the unchanged session state. -/
theorem c6_msg3_failfast_integrity
    (ctx : SpRaContext) (msg3 : RaMsg3) (smk : MacTag) (vd : List Nat) (d : Bool)
    (hsmk : ctx.smk = some smk) :
    (verifyMacMsg3 smk msg3 = false →
      ∀ ias, ctx.process_msg_3 d ias msg3 = .err ctx .IntegrityError) ∧
    (verifyMacMsg3 smk msg3 = true → ctx.verification_digest = some vd →
      vd ≠ subBytes msg3.quote 368 32 →
      ∀ ias, ctx.process_msg_3 d ias msg3 = .err ctx .IntegrityError) := by
  constructor
  · intro hmac ias
    unfold SpRaContext.process_msg_3
    rw [hsmk]
    simp [hmac]
  · intro hmac hvd hne ias
    unfold SpRaContext.process_msg_3
    rw [hsmk, hvd]
    simp [hmac, hne]

set_option maxRecDepth 5000 in
/-- Witness for C6: a MAC-corrupted MSG3 and a digest-mismatched MSG3
both produce IntegrityError with the state unchanged. -/
theorem c6_msg3_failfast_integrity_witness :
    SpRaContext.process_msg_3 false iasOkFx ctxC6 msg3C6a =
      .err ctxC6 SpRaError.IntegrityError ∧
    SpRaContext.process_msg_3 false iasOkFx ctxC6 msg3C6b =
      .err ctxC6 SpRaError.IntegrityError := by
  constructor
  · exact (c6_msg3_failfast_integrity ctxC6 msg3C6a 99 (subBytes quoteZ 368 32) false
      rfl).1 (by decide) iasOkFx
  · exact (c6_msg3_failfast_integrity ctxC6 msg3C6b 99 (subBytes quoteZ 368 32) false
      rfl).2 (by decide) rfl (by decide) iasOkFx

/-- C7: once the MAC and digest checks pass and IAS verification
succeeds, `process_msg_3` returns SigstructMismatched exactly when one of
the four enclave-identity comparisons against the SIGSTRUCT fails:
MRENCLAVE at quote[112..144), SHA-256 of the modulus at quote[176..208),
ISVPRODID at quote[304..306) or ISVSVN at quote[306..308). -/
theorem c7_sigstruct_mismatch_iff
    (ctx : SpRaContext) (msg3 : RaMsg3) (smk : MacTag) (d : Bool)
    (ias : List Nat → Except SpRaError AttestationResult) (ar : AttestationResult)
    (hsmk : ctx.smk = some smk)
    (hmac : verifyMacMsg3 smk msg3 = true)
    (hvd : ctx.verification_digest = some (subBytes msg3.quote 368 32))
    (har : ias msg3.quote = Except.ok ar) :
    (ctx.process_msg_3 d ias msg3 = .err ctx .SigstructMismatched) ↔
      (subBytes msg3.quote 112 32 ≠ ctx.sigstruct.enclavehash ∨
       subBytes msg3.quote 176 32 ≠ sha256 ctx.sigstruct.modulus ∨
       u16le msg3.quote 304 ≠ ctx.sigstruct.isvprodid ∨
       u16le msg3.quote 306 ≠ ctx.sigstruct.isvsvn) := by
  unfold SpRaContext.process_msg_3
  rw [hsmk, hvd, har]
  simp only [hmac, Bool.true_eq_false, if_false, ne_eq, not_true_eq_false]
  by_cases hid : (¬subBytes msg3.quote 112 32 = ctx.sigstruct.enclavehash ∨
      ¬subBytes msg3.quote 176 32 = sha256 ctx.sigstruct.modulus ∨
      ¬u16le msg3.quote 304 = ctx.sigstruct.isvprodid ∨
      ¬u16le msg3.quote 306 = ctx.sigstruct.isvsvn)
  · simp [hid]
  · refine iff_of_false ?_ hid
    rw [if_neg hid]
    split
    · simp
    · split
      · simp
      · split
        · simp
        · split <;> simp

set_option maxRecDepth 5000 in
/-- Witness for C7: a session whose expected MRENCLAVE differs from the
quote ends in SigstructMismatched. -/
theorem c7_sigstruct_mismatch_iff_witness :
    SpRaContext.process_msg_3 false iasOkFx ctxC7 msg3C7 =
      .err ctxC7 SpRaError.SigstructMismatched :=
  (c7_sigstruct_mismatch_iff ctxC7 msg3C7 99 false iasOkFx arOkFx
    rfl (by decide) rfl rfl).mpr (Or.inl (by decide))

/-- C8: each ephemeral DH keypair is single-use.  Both `init` operations
store the generated keypair in the `key_exchange` holder; the
key-derivation steps (`process_msg_1` on the SP, `process_msg_2` on the
enclave) take the keypair out, so every non-panicking outcome leaves the
holder empty, and invoking either step on a context whose holder is
already empty panics on the empty holder instead of reusing a key. -/
theorem c8_key_exchange_single_use
    (cfg : SpConfig) (spk vk : Nat) (kp : OneWayAuthenticatedDHKE) (sg : Sigstruct)
    (ctxS : SpRaContext) (ctxE : EnclaveRaContext)
    (sigRl : Except SpRaError (Option (List Nat))) (msg1 : RaMsg1)
    (vla : List Nat → Bool) (msg2R : Option RaMsg2) (st : StreamSt) :
    (∀ c, SpRaContext.init cfg spk kp sg = some c → c.key_exchange = some kp) ∧
    ((EnclaveRaContext.init vk kp).key_exchange = some kp) ∧
    (ctxS.key_exchange = none → ctxS.process_msg_1 sigRl msg1 = .panic) ∧
    (∀ c m2, ctxS.process_msg_1 sigRl msg1 = .ok c m2 → c.key_exchange = none) ∧
    (∀ c e, ctxS.process_msg_1 sigRl msg1 = .err c e → c.key_exchange = none) ∧
    (ctxE.key_exchange = none → ctxE.process_msg_2 vla msg2R st = .panic) ∧
    (∀ c s r, ctxE.process_msg_2 vla msg2R st = .ok (c, s) r → c.key_exchange = none) ∧
    (∀ c s e, ctxE.process_msg_2 vla msg2R st = .err (c, s) e → c.key_exchange = none) := by
  refine ⟨?_, rfl, ?_, ?_, ?_, ?_, ?_, ?_⟩
  · intro c h
    unfold SpRaContext.init at h
    split at h
    · injection h with h
      subst h
      rfl
    · exact absurd h (by simp)
  · intro h
    unfold SpRaContext.process_msg_1
    rw [h]
  · intro c m2 h
    unfold SpRaContext.process_msg_1 at h
    rcases hke : ctxS.key_exchange with _ | ke <;> rw [hke] at h
    · exact absurd h (by simp)
    · dsimp only at h
      split at h
      · exact absurd h (by simp)
      · simp only [RunResult.ok.injEq] at h
        obtain ⟨hc, -⟩ := h
        subst hc
        rfl
  · intro c e h
    unfold SpRaContext.process_msg_1 at h
    rcases hke : ctxS.key_exchange with _ | ke <;> rw [hke] at h
    · exact absurd h (by simp)
    · dsimp only at h
      split at h
      · simp only [RunResult.err.injEq] at h
        obtain ⟨hc, -⟩ := h
        subst hc
        rfl
      · exact absurd h (by simp)
  · intro h
    unfold EnclaveRaContext.process_msg_2
    rw [h]
  · intro c s r h
    unfold EnclaveRaContext.process_msg_2 at h
    rcases hke : ctxE.key_exchange with _ | ke <;> rw [hke] at h
    · exact absurd h (by simp)
    · dsimp only at h
      rcases msg2R with _ | msg2
      · exact absurd h (by simp)
      · dsimp only at h
        split at h
        · exact absurd h (by simp)
        · split at h
          · exact absurd h (by simp)
          · split at h
            · exact absurd h (by simp)
            · exact absurd h (by simp)
            · simp only [RunResult.ok.injEq, Prod.mk.injEq] at h
              obtain ⟨⟨hc, -⟩, -⟩ := h
              subst hc
              rfl
  · intro c s e h
    unfold EnclaveRaContext.process_msg_2 at h
    rcases hke : ctxE.key_exchange with _ | ke <;> rw [hke] at h
    · exact absurd h (by simp)
    · dsimp only at h
      rcases msg2R with _ | msg2
      · exact absurd h (by simp)
      · dsimp only at h
        split at h
        · exact absurd h (by simp)
        · split at h
          · simp only [RunResult.err.injEq, Prod.mk.injEq] at h
            obtain ⟨⟨hc, -⟩, -⟩ := h
            subst hc
            rfl
          · split at h
            · exact absurd h (by simp)
            · simp only [RunResult.err.injEq, Prod.mk.injEq] at h
              obtain ⟨⟨hc, -⟩, -⟩ := h
              subst hc
              rfl
            · exact absurd h (by simp)

set_option maxRecDepth 8000 in
/-- Witness for C8 on concrete sessions: the init outputs hold the
keypair, both derivation steps leave the holder empty after the fixture
runs, and both panic on a context whose holder is already empty. -/
theorem c8_key_exchange_single_use_witness :
    initCtxC8.key_exchange = some ⟨4⟩ ∧
    (EnclaveRaContext.init 9 ⟨3⟩).key_exchange = some ⟨3⟩ ∧
    SpRaContext.process_msg_1 (Except.ok none)
      { ctxC4 with key_exchange := none } msg1C4 = .panic ∧
    ctx1C4.key_exchange = none ∧
    EnclaveRaContext.process_msg_2 vlaTrue
      { ctxEC2 with key_exchange := none } (some msg2C4) stC2 = .panic ∧
    ctxE1C2.key_exchange = none := by
  refine ⟨?_, ?_, ?_, ?_, ?_, ?_⟩
  · exact (c8_key_exchange_single_use ctxC4.config 9 9 ⟨4⟩ sgZero ctxC4 ctxEC2
      (Except.ok none) msg1C4 vlaTrue (some msg2C4) stC2).1 initCtxC8 (by rfl)
  · exact (c8_key_exchange_single_use ctxC4.config 9 9 ⟨3⟩ sgZero ctxC4 ctxEC2
      (Except.ok none) msg1C4 vlaTrue (some msg2C4) stC2).2.1
  · exact (c8_key_exchange_single_use ctxC4.config 9 9 ⟨4⟩ sgZero
      { ctxC4 with key_exchange := none } ctxEC2
      (Except.ok none) msg1C4 vlaTrue (some msg2C4) stC2).2.2.1 rfl
  · exact (c8_key_exchange_single_use ctxC4.config 9 9 ⟨4⟩ sgZero ctxC4 ctxEC2
      (Except.ok none) msg1C4 vlaTrue (some msg2C4) stC2).2.2.2.1
      ctx1C4 msg2C4 (by rfl)
  · exact (c8_key_exchange_single_use ctxC4.config 9 9 ⟨4⟩ sgZero ctxC4
      { ctxEC2 with key_exchange := none }
      (Except.ok none) msg1C4 vlaTrue (some msg2C4) stC2).2.2.2.2.2.1 rfl
  · exact (c8_key_exchange_single_use ctxC4.config 9 9 ⟨4⟩ sgZero ctxC4 ctxEC2
      (Except.ok none) msg1C4 vlaTrue (some msg2C4) stC2).2.2.2.2.2.2.1
      ctxE1C2 stEC2 encValC2 (by rfl)

/-- C9: the `unwrap()` of `config.pse_trust_options` inside the MSG4
trust decision panics exactly when IAS reports a PSE manifest status
other than OK while no PSE trust options are configured: under that
condition a run that reaches the trust decision panics, and whenever the
options are present (and the session state is populated) `process_msg_3`
never panics. -/
theorem c9_pse_unwrap_panic
    (ctx : SpRaContext) (msg3 : RaMsg3) (d : Bool)
    (ias : List Nat → Except SpRaError AttestationResult) (ar : AttestationResult)
    (smk : MacTag) (vd : List Nat) (s : String)
    (hsmk : ctx.smk = some smk)
    (hvd : ctx.verification_digest = some vd) :
    ((verifyMacMsg3 smk msg3 = true) →
     (vd = subBytes msg3.quote 368 32) →
     (ias msg3.quote = Except.ok ar) →
     (¬(subBytes msg3.quote 112 32 ≠ ctx.sigstruct.enclavehash ∨
        subBytes msg3.quote 176 32 ≠ sha256 ctx.sigstruct.modulus ∨
        u16le msg3.quote 304 ≠ ctx.sigstruct.isvprodid ∨
        u16le msg3.quote 306 ≠ ctx.sigstruct.isvsvn)) →
     (¬(d = false ∧ Nat.land DEBUG_FLAG ctx.sigstruct.attributes_flags ≠ 0)) →
     ar.pse_manifest_status = some s → s ≠ "OK" →
     ctx.config.pse_trust_options = none →
     ctx.process_msg_3 d ias msg3 = .panic) ∧
    (∀ opts, ctx.config.pse_trust_options = some opts →
     ∀ msg3a iasa, ctx.process_msg_3 d iasa msg3a ≠ .panic) := by
  constructor
  · intro hmac hvdeq har hid hdbg hps hs hopt
    unfold SpRaContext.process_msg_3
    rw [hsmk]
    dsimp only
    rw [if_neg (by simp [hmac])]
    rw [hvd]
    dsimp only
    rw [if_neg (by simp [hvdeq])]
    rw [har]
    dsimp only
    rw [if_neg hid]
    rw [if_neg hdbg]
    rw [hps]
    dsimp only
    rw [if_neg hs]
    rw [hopt]
  · intro opts hopt msg3a iasa
    unfold SpRaContext.process_msg_3
    rw [hsmk]
    dsimp only
    split
    · simp
    · rw [hvd]
      dsimp only
      split
      · simp
      · split
        · simp
        · split
          · simp
          · split
            · simp
            · split
              · simp
              · split
                · simp
                · rw [hopt]
                  simp

set_option maxRecDepth 5000 in
/-- Witness for C9: the same bad-PSE session panics when PSE trust
options are absent and does not panic when they are present. -/
theorem c9_pse_unwrap_panic_witness :
    SpRaContext.process_msg_3 false iasPseBad ctxC9a msg3C9 = .panic ∧
    SpRaContext.process_msg_3 false iasPseBad ctxC9b msg3C9 ≠ .panic := by
  constructor
  · exact (c9_pse_unwrap_panic ctxC9a msg3C9 false iasPseBad arPseBadFx 99
      (subBytes quoteZ 368 32) "BAD" rfl rfl).1
      (by decide) rfl rfl (by decide) (by decide) rfl (by decide) rfl
  · exact (c9_pse_unwrap_panic ctxC9b msg3C9 false iasPseBad arPseBadFx 99
      (subBytes quoteZ 368 32) "BAD" rfl rfl).2 [] rfl msg3C9 iasPseBad

/-- C10: `get_quote` rejects report data longer than 64 bytes with
ReportDataLongerThan64Bytes before touching the stream (the returned
error carries the untouched stream state), and for report data of at
most 64 bytes it runs the quote exchange on the 64-byte buffer obtained
by zero-padding the data on the right. -/
theorem c10_get_quote_report_data (vla : List Nat → Bool) (rd : List Nat)
    (st : StreamSt) :
    (rd.length > 64 →
      EnclaveRaContext.get_quote vla rd st = .err st .ReportDataLongerThan64Bytes) ∧
    (rd.length ≤ 64 →
      EnclaveRaContext.get_quote vla rd st =
        getQuoteWithBuffer vla (rd ++ List.replicate (64 - rd.length) 0) st) := by
  constructor
  · intro h
    unfold EnclaveRaContext.get_quote
    rw [if_pos h]
  · intro h
    unfold EnclaveRaContext.get_quote getQuoteWithBuffer
    rw [if_neg (by omega)]

set_option maxRecDepth 5000 in
/-- Witness for C10: a 65-byte report datum is rejected with the stream
untouched; a 1-byte report datum runs on the zero-padded buffer. -/
theorem c10_get_quote_report_data_witness :
    EnclaveRaContext.get_quote vlaTrue (List.replicate 65 0) stC2 =
      .err stC2 EnclaveRaError.ReportDataLongerThan64Bytes ∧
    EnclaveRaContext.get_quote vlaTrue [5] stC2 =
      getQuoteWithBuffer vlaTrue
        ([5] ++ List.replicate (64 - [5].length) 0) stC2 := by
  constructor
  · exact (c10_get_quote_report_data vlaTrue (List.replicate 65 0) stC2).1 (by simp)
  · exact (c10_get_quote_report_data vlaTrue [5] stC2).2 (by simp)

end SgxRa
